import Mathlib

/-!
Shallow embedding of the x86 instruction-selection utilities of
`src/compiler/codegen/x86/utility_x86.cc` (ART x86 codegen backend).

Machine registers are abstract handles (`Nat`) whose class bits follow the
spec's register-handle description; immediates and displacements are `Int`.
Emitted LIR instruction records are collected in an explicit compilation-unit
state, and fatal checks (`LOG(FATAL)`, `CHECK`, `DCHECK`) are modelled as
`Except.error`.
-/

deriving instance DecidableEq for Except

namespace ArtX86

/-- Modelled from the spec: the register-class bit ranges of the abstract
register handle (`x86_lir.h` is not part of the sources). Floating handles
carry the floating bit; double handles additionally carry the double bit. -/
def X86_FP_REG_OFFSET : Nat := 32

/-- Modelled from the spec: the bit pattern identifying a floating-double
handle (floating bit plus double bit). -/
def X86_FP_DOUBLE : Nat := 48

/-- Modelled from the spec: predicate for a floating (single or double)
register handle. -/
def X86_FPREG (r : Nat) : Bool := r &&& X86_FP_REG_OFFSET = X86_FP_REG_OFFSET

/-- Modelled from the spec: predicate for a floating-double register handle. -/
def X86_DOUBLEREG (r : Nat) : Bool := r &&& X86_FP_DOUBLE = X86_FP_DOUBLE

/-- Modelled from the spec: predicate for a floating-single register handle. -/
def X86_SINGLEREG (r : Nat) : Bool := X86_FPREG r && !X86_DOUBLEREG r

/-- Modelled from the spec: alias two adjacent single registers into one
double-width register handle. -/
def S2d (low _high : Nat) : Nat := low ||| X86_FP_DOUBLE

/-- Modelled from the spec: the fixed x86 shift-count register ECX. -/
def rCX : Nat := 1

/-- Modelled from the spec: the x86 frame-pointer register EBP, which cannot
be encoded as an `lea` base. -/
def rBP : Nat := 5

/-- Modelled from the spec: the x86 stack-pointer register. -/
def rX86_SP : Nat := 4

/-- Modelled from the spec: the SIB encoding for an `lea` with no index. -/
def r4sib_no_index : Nat := 4

/-- Modelled from the spec: the SIB encoding for an `lea` with no base. -/
def r5sib_no_base : Nat := 5

/-- Modelled from the spec: the sentinel register handle meaning "no
register" (selects the non-indexed addressing form). -/
def INVALID_REG : Nat := 255

/-- Modelled from the spec: byte offset of the low half of a 64-bit value. -/
def LOWORD_OFFSET : Int := 0

/-- Modelled from the spec: byte offset of the high half of a 64-bit value. -/
def HIWORD_OFFSET : Int := 4

/-- Modelled from the spec: the 8-bit signed-fits check used to select short
immediate encodings. -/
def IS_SIMM8 (v : Int) : Bool := -128 ≤ v && v ≤ 127

/-- The abstract operation kinds dispatched on by the opcode selectors
(the subset of `OpKind` used by this file). -/
inductive OpKind where
  | kOpNeg | kOpNot | kOpBlx
  | kOpLsl | kOpLsr | kOpAsr | kOpRor
  | kOpAdd | kOpOr | kOpAdc | kOpAnd | kOpSub | kOpSbc | kOpXor
  | kOpCmp | kOpMov | kOpMul | kOpMvn
  | kOp2Byte | kOp2Short | kOp2Char
  deriving DecidableEq, Repr

/-- The concrete x86 opcodes emitted by `utility_x86.cc`. -/
inductive X86OpCode where
  | kX86Nop | kX86Bkpt
  | kX86MovsdRR | kX86MovssRR | kX86MovdxrRR | kX86MovdrxRR
  | kX86XorpsRR | kX86Xor32RR | kX86Mov32RI
  | kX86Jmp8 | kX86Jcc8
  | kX86Neg32R | kX86Not32R | kX86CallR
  | kX86Sal32RI | kX86Shr32RI | kX86Sar32RI
  | kX86Add32RI8 | kX86Add32RI
  | kX86Or32RI8 | kX86Or32RI
  | kX86Adc32RI8 | kX86Adc32RI
  | kX86And32RI8 | kX86And32RI
  | kX86Sub32RI8 | kX86Sub32RI
  | kX86Xor32RI8 | kX86Xor32RI
  | kX86Cmp32RI8 | kX86Cmp32RI
  | kX86Imul32RRI8 | kX86Imul32RRI
  | kX86Sub32RR | kX86Sbb32RR
  | kX86Sal32RC | kX86Shr32RC | kX86Sar32RC
  | kX86Mov32RR | kX86Cmp32RR | kX86Add32RR | kX86Adc32RR
  | kX86And32RR | kX86Or32RR
  | kX86Movsx8RR | kX86Movsx16RR | kX86Movzx16RR | kX86Movzx8RR
  | kX86Imul32RR
  | kX86Lea32RA
  | kX86PsllqRI | kX86OrpsRR
  | kX86MovsdRA | kX86MovsdRM | kX86MovssRA | kX86MovssRM
  | kX86Mov32RA | kX86Mov32RM
  | kX86Movzx16RA | kX86Movzx16RM | kX86Movsx16RA | kX86Movsx16RM
  | kX86Movzx8RA | kX86Movzx8RM | kX86Movsx8RA | kX86Movsx8RM
  | kX86MovsdAR | kX86MovsdMR | kX86MovssAR | kX86MovssMR
  | kX86Mov32AR | kX86Mov32MR | kX86Mov16AR | kX86Mov16MR
  | kX86Mov8AR | kX86Mov8MR
  deriving DecidableEq, Repr

open OpKind X86OpCode

/-- One emitted LIR instruction record: concrete opcode, operand slots
(registers coerced to `Int`, immediates, base/index/scale/displacement),
and the no-op flag used for self-moves. -/
structure LIR where
  opcode : X86OpCode
  operands : List Int
  is_nop : Bool := false
  deriving DecidableEq, Repr

/-- The per-call compilation-unit state this layer touches: the instruction
stream being appended to, the next temporary handle the external allocator
will lease, and the allocator's available-temporary count. -/
structure CU where
  insns : List LIR
  nextTemp : Nat
  freeTemps : Int
  deriving DecidableEq, Repr

/-- Append one instruction record to the stream and return it
(the common behaviour of `NewLIR1`/`NewLIR2`/`NewLIR3`/`NewLIR5`). -/
def NewLIR (cu : CU) (opcode : X86OpCode) (operands : List Int)
    (is_nop : Bool := false) : CU × LIR :=
  let l : LIR := ⟨opcode, operands, is_nop⟩
  ({ cu with insns := cu.insns ++ [l] }, l)

/-- Modelled from the spec: `AllocTemp` borrows a general-purpose temporary
from the external register allocator, decrementing its available count. -/
def AllocTemp (cu : CU) : CU × Nat :=
  ({ cu with nextTemp := cu.nextTemp + 1, freeTemps := cu.freeTemps - 1 },
   cu.nextTemp)

/-- Modelled from the spec: `FreeTemp` releases a borrowed temporary back to
the external allocator, incrementing its available count. -/
def FreeTemp (cu : CU) (_r : Nat) : CU :=
  { cu with freeTemps := cu.freeTemps + 1 }

/-- Modelled from the spec: `OpRegCopy` (the allocator-provided
`copy_register`): class-aware move-opcode selection, with a same-register
copy still encoded but flagged as a no-op. -/
def OpRegCopy (cu : CU) (r_dest r_src : Nat) : CU × LIR :=
  let opcode :=
    if X86_FPREG r_dest then
      if X86_FPREG r_src then
        if X86_DOUBLEREG r_dest then kX86MovsdRR else kX86MovssRR
      else kX86MovdxrRR
    else
      if X86_FPREG r_src then kX86MovdrxRR else kX86Mov32RR
  NewLIR cu opcode [(r_dest : Int), (r_src : Int)] (r_dest = r_src)

/-- `X86Codegen::LoadConstantNoClobber`: load an immediate into `r_dest`.
Zero is cleared by self-xor; a non-zero value for a floating destination is
built in a borrowed general-purpose temporary and moved across. -/
def LoadConstantNoClobber (cu : CU) (r_dest : Nat) (value : Int) :
    Except String (CU × LIR) := do
  let r_dest_save := r_dest
  if X86_FPREG r_dest then
    if value = 0 then
      return NewLIR cu kX86XorpsRR [(r_dest : Int), (r_dest : Int)]
    else if !X86_SINGLEREG r_dest then
      throw "DCHECK failed: X86_SINGLEREG r_dest"
    else
      let (cu, r_dest) := AllocTemp cu
      let (cu, res) :=
        if value = 0 then NewLIR cu kX86Xor32RR [(r_dest : Int), (r_dest : Int)]
        else NewLIR cu kX86Mov32RI [(r_dest : Int), value]
      -- X86_FPREG r_dest_save holds on this path
      let (cu, _) := NewLIR cu kX86MovdxrRR [(r_dest_save : Int), (r_dest : Int)]
      let cu := FreeTemp cu r_dest
      return (cu, res)
  else
    let (cu, res) :=
      if value = 0 then NewLIR cu kX86Xor32RR [(r_dest : Int), (r_dest : Int)]
      else NewLIR cu kX86Mov32RI [(r_dest : Int), value]
    return (cu, res)

/-- `X86Codegen::OpReg`: unary register operation. -/
def OpReg (cu : CU) (op : OpKind) (r_dest_src : Nat) :
    Except String (CU × LIR) :=
  match op with
  | kOpNeg => .ok (NewLIR cu kX86Neg32R [(r_dest_src : Int)])
  | kOpNot => .ok (NewLIR cu kX86Not32R [(r_dest_src : Int)])
  | kOpBlx => .ok (NewLIR cu kX86CallR [(r_dest_src : Int)])
  | _ => throw "Bad case in OpReg"

/-- `X86Codegen::OpRegImm`: register-immediate operation; the 8-bit
signed-fits check selects short-immediate opcodes where both forms exist. -/
def OpRegImm (cu : CU) (op : OpKind) (r_dest_src1 : Nat) (value : Int) :
    Except String (CU × LIR) := do
  let byte_imm := IS_SIMM8 value
  if X86_FPREG r_dest_src1 then
    throw "DCHECK failed: !X86_FPREG r_dest_src1"
  else
    match op with
    | kOpLsl => return NewLIR cu kX86Sal32RI [(r_dest_src1 : Int), value]
    | kOpLsr => return NewLIR cu kX86Shr32RI [(r_dest_src1 : Int), value]
    | kOpAsr => return NewLIR cu kX86Sar32RI [(r_dest_src1 : Int), value]
    | kOpAdd => return NewLIR cu (if byte_imm then kX86Add32RI8 else kX86Add32RI)
                  [(r_dest_src1 : Int), value]
    | kOpOr  => return NewLIR cu (if byte_imm then kX86Or32RI8 else kX86Or32RI)
                  [(r_dest_src1 : Int), value]
    | kOpAdc => return NewLIR cu (if byte_imm then kX86Adc32RI8 else kX86Adc32RI)
                  [(r_dest_src1 : Int), value]
    | kOpAnd => return NewLIR cu (if byte_imm then kX86And32RI8 else kX86And32RI)
                  [(r_dest_src1 : Int), value]
    | kOpSub => return NewLIR cu (if byte_imm then kX86Sub32RI8 else kX86Sub32RI)
                  [(r_dest_src1 : Int), value]
    | kOpXor => return NewLIR cu (if byte_imm then kX86Xor32RI8 else kX86Xor32RI)
                  [(r_dest_src1 : Int), value]
    | kOpCmp => return NewLIR cu (if byte_imm then kX86Cmp32RI8 else kX86Cmp32RI)
                  [(r_dest_src1 : Int), value]
    | kOpMov => LoadConstantNoClobber cu r_dest_src1 value
    | kOpMul => return NewLIR cu (if byte_imm then kX86Imul32RRI8 else kX86Imul32RRI)
                  [(r_dest_src1 : Int), (r_dest_src1 : Int), value]
    | _ => throw "Bad case in OpRegImm"

/-- `X86Codegen::OpRegReg`: register-register operation; shifts require the
count in `rCX` (checked fatally), and byte narrowing from a register outside
the byte-addressable set uses a copy/shift-left/shift-right sequence. -/
def OpRegReg (cu : CU) (op : OpKind) (r_dest_src1 r_src2 : Nat) :
    Except String (CU × LIR) := do
  match op with
  | kOpMvn =>
      let (cu, _) := OpRegCopy cu r_dest_src1 r_src2
      OpReg cu kOpNot r_dest_src1
  | kOpNeg =>
      let (cu, _) := OpRegCopy cu r_dest_src1 r_src2
      OpReg cu kOpNeg r_dest_src1
  | kOp2Byte =>
      -- Use shifts instead of a byte operand if the source can't be byte accessed
      if r_src2 ≥ 4 then
        let (cu, _) := NewLIR cu kX86Mov32RR [(r_dest_src1 : Int), (r_src2 : Int)]
        let (cu, _) := NewLIR cu kX86Sal32RI [(r_dest_src1 : Int), 24]
        return NewLIR cu kX86Sar32RI [(r_dest_src1 : Int), 24]
      else
        return NewLIR cu kX86Movsx8RR [(r_dest_src1 : Int), (r_src2 : Int)]
  | _ =>
      let sel : Option (X86OpCode × Bool) :=
        match op with
        | kOpSub => some (kX86Sub32RR, false)
        | kOpSbc => some (kX86Sbb32RR, false)
        | kOpLsl => some (kX86Sal32RC, true)
        | kOpLsr => some (kX86Shr32RC, true)
        | kOpAsr => some (kX86Sar32RC, true)
        | kOpMov => some (kX86Mov32RR, false)
        | kOpCmp => some (kX86Cmp32RR, false)
        | kOpAdd => some (kX86Add32RR, false)
        | kOpAdc => some (kX86Adc32RR, false)
        | kOpAnd => some (kX86And32RR, false)
        | kOpOr  => some (kX86Or32RR, false)
        | kOpXor => some (kX86Xor32RR, false)
        | kOp2Short => some (kX86Movsx16RR, false)
        | kOp2Char => some (kX86Movzx16RR, false)
        | kOpMul => some (kX86Imul32RR, false)
        | _ => none
      match sel with
      | none => throw "Bad case in OpRegReg"
      | some (opcode, src2_must_be_cx) =>
          if src2_must_be_cx ∧ r_src2 ≠ rCX then
            throw "CHECK failed: src2 must be rCX"
          else
            return NewLIR cu opcode [(r_dest_src1 : Int), (r_src2 : Int)]

/-- `X86Codegen::OpRegRegReg`: three-operand synthesis `r_dest = r_src1 OP
r_src2` over a two-operand instruction set, by aliasing analysis. -/
def OpRegRegReg (cu : CU) (op : OpKind) (r_dest r_src1 r_src2 : Nat) :
    Except String (CU × LIR) := do
  if r_dest ≠ r_src1 ∧ r_dest ≠ r_src2 then
    if op = kOpAdd then -- lea special case, except can't encode rbp as base
      if r_src1 = r_src2 then
        let (cu, _) := OpRegCopy cu r_dest r_src1
        OpRegImm cu kOpLsl r_dest 1
      else if r_src1 ≠ rBP then
        return NewLIR cu kX86Lea32RA
          [(r_dest : Int), (r_src1 : Int) /- base -/,
           (r_src2 : Int) /- index -/, 0 /- scale -/, 0 /- disp -/]
      else
        return NewLIR cu kX86Lea32RA
          [(r_dest : Int), (r_src2 : Int) /- base -/,
           (r_src1 : Int) /- index -/, 0 /- scale -/, 0 /- disp -/]
    else
      let (cu, _) := OpRegCopy cu r_dest r_src1
      OpRegReg cu op r_dest r_src2
  else if r_dest = r_src1 then
    OpRegReg cu op r_dest r_src2
  else -- r_dest = r_src2
    match op with
    | kOpSub => -- non-commutative
        let (cu, _) ← OpReg cu kOpNeg r_dest
        OpRegReg cu kOpAdd r_dest r_src1
    | kOpSbc | kOpLsl | kOpLsr | kOpAsr | kOpRor =>
        let (cu, t_reg) := AllocTemp cu
        let (cu, _) := OpRegCopy cu t_reg r_src1
        let (cu, _) ← OpRegReg cu op t_reg r_src2
        let (cu, res) := OpRegCopy cu r_dest t_reg
        let cu := FreeTemp cu t_reg
        return (cu, res)
    | kOpAdd | kOpOr | kOpAdc | kOpAnd | kOpXor => -- commutative
        OpRegReg cu op r_dest r_src1
    | _ => throw "Bad case in OpRegRegReg"

/-- `X86Codegen::OpRegRegImm`: `r_dest = r_src OP value`, with the `and`
mask-to-zero-extend rewrite and the `lea` add-with-displacement shortcut.
The lea shift special case of the source is disabled there by a constant
false guard (known encoding bug at zero displacement) and is therefore an
unreachable branch here as well. -/
def OpRegRegImm (cu : CU) (op : OpKind) (r_dest r_src : Nat) (value : Int) :
    Except String (CU × LIR) := do
  if op = kOpMul then
    return NewLIR cu (if IS_SIMM8 value then kX86Imul32RRI8 else kX86Imul32RRI)
      [(r_dest : Int), (r_src : Int), value]
  else if op = kOpAnd ∧ value = 0xFF ∧ r_src < 4 then
    return NewLIR cu kX86Movzx8RR [(r_dest : Int), (r_src : Int)]
  else if op = kOpAnd ∧ value = 0xFFFF then
    return NewLIR cu kX86Movzx16RR [(r_dest : Int), (r_src : Int)]
  else
    if r_dest ≠ r_src then
      if False ∧ op = kOpLsl ∧ 0 ≤ value ∧ value ≤ 3 then
        -- lea shift special case: disabled in the source pending an
        -- encoding fix for disp == 0
        return NewLIR cu kX86Lea32RA
          [(r_dest : Int), (r5sib_no_base : Int) /- base -/,
           (r_src : Int) /- index -/, value /- scale -/, 0 /- disp -/]
      else if op = kOpAdd then -- lea add special case
        return NewLIR cu kX86Lea32RA
          [(r_dest : Int), (r_src : Int) /- base -/,
           (r4sib_no_index : Int) /- index -/, 0 /- scale -/, value /- disp -/]
      else
        let (cu, _) := OpRegCopy cu r_dest r_src
        OpRegImm cu op r_dest value
    else
      OpRegImm cu op r_dest value

/-- `X86Codegen::LoadConstantValueWide`: materialize a 64-bit constant into
a low/high register pair; a floating pair is built in the low register with
an explicit shift/or merge for a non-zero high half. -/
def LoadConstantValueWide (cu : CU) (r_dest_lo r_dest_hi : Nat)
    (val_lo val_hi : Int) : Except String (CU × LIR) := do
  if X86_FPREG r_dest_lo then
    if !X86_FPREG r_dest_hi then
      throw "DCHECK failed: X86_FPREG r_dest_hi"
    else if val_lo = 0 ∧ val_hi = 0 then
      return NewLIR cu kX86XorpsRR [(r_dest_lo : Int), (r_dest_lo : Int)]
    else
      let (cu, res) ←
        if val_lo = 0 then
          pure (NewLIR cu kX86XorpsRR [(r_dest_lo : Int), (r_dest_lo : Int)])
        else
          LoadConstantNoClobber cu r_dest_lo val_lo
      if val_hi ≠ 0 then
        let (cu, _) ← LoadConstantNoClobber cu r_dest_hi val_hi
        let (cu, _) := NewLIR cu kX86PsllqRI [(r_dest_hi : Int), 32]
        let (cu, _) := NewLIR cu kX86OrpsRR [(r_dest_lo : Int), (r_dest_hi : Int)]
        return (cu, res)
      else
        return (cu, res)
  else
    let (cu, res) ← LoadConstantNoClobber cu r_dest_lo val_lo
    let (cu, _) ← LoadConstantNoClobber cu r_dest_hi val_hi
    return (cu, res)

/-- The size/signedness variants of a memory access. -/
inductive OpSize where
  | kLong | kDouble | kWord | kSingle
  | kUnsignedHalf | kSignedHalf | kUnsignedByte | kSignedByte
  deriving DecidableEq, Repr

open OpSize

/-- Outcome of the load opcode-selection switch: the chosen opcode, whether
the access is a general-purpose register pair, and the (possibly aliased)
destination registers. -/
structure LoadSel where
  opcode : X86OpCode
  pair : Bool
  r_dest : Nat
  r_dest_hi : Nat
  deriving DecidableEq, Repr

/-- The opcode/pairing selection switch of `X86Codegen::LoadBaseIndexedDisp`
(including its alignment and floating-pair adjacency assertions). -/
def LoadBaseIndexedDispSel (is_array : Bool) (displacement : Int)
    (r_dest r_dest_hi : Nat) (size : OpSize) : Except String LoadSel := do
  match size with
  | kLong | kDouble =>
      if X86_FPREG r_dest then
        let opcode := if is_array then kX86MovsdRA else kX86MovsdRM
        let r_dest ←
          if X86_SINGLEREG r_dest then
            if !X86_FPREG r_dest_hi then
              throw "DCHECK failed: X86_FPREG r_dest_hi"
            else if r_dest ≠ r_dest_hi - 1 then
              throw "DCHECK failed: r_dest adjacent to r_dest_hi"
            else
              pure (S2d r_dest r_dest_hi)
          else
            pure r_dest
        if displacement % 4 ≠ 0 then
          throw "DCHECK failed: displacement word-aligned"
        else
          return ⟨opcode, false, r_dest, r_dest + 1⟩
      else
        if displacement % 4 ≠ 0 then
          throw "DCHECK failed: displacement word-aligned"
        else
          return ⟨(if is_array then kX86Mov32RA else kX86Mov32RM), true,
                  r_dest, r_dest_hi⟩
  | kWord | kSingle =>
      if X86_FPREG r_dest then
        if !X86_SINGLEREG r_dest then
          throw "DCHECK failed: X86_SINGLEREG r_dest"
        else if displacement % 4 ≠ 0 then
          throw "DCHECK failed: displacement word-aligned"
        else
          return ⟨(if is_array then kX86MovssRA else kX86MovssRM), false,
                  r_dest, r_dest_hi⟩
      else
        if displacement % 4 ≠ 0 then
          throw "DCHECK failed: displacement word-aligned"
        else
          return ⟨(if is_array then kX86Mov32RA else kX86Mov32RM), false,
                  r_dest, r_dest_hi⟩
  | kUnsignedHalf =>
      if displacement % 2 ≠ 0 then
        throw "DCHECK failed: displacement half-aligned"
      else
        return ⟨(if is_array then kX86Movzx16RA else kX86Movzx16RM), false,
                r_dest, r_dest_hi⟩
  | kSignedHalf =>
      if displacement % 2 ≠ 0 then
        throw "DCHECK failed: displacement half-aligned"
      else
        return ⟨(if is_array then kX86Movsx16RA else kX86Movsx16RM), false,
                r_dest, r_dest_hi⟩
  | kUnsignedByte =>
      return ⟨(if is_array then kX86Movzx8RA else kX86Movzx8RM), false,
              r_dest, r_dest_hi⟩
  | kSignedByte =>
      return ⟨(if is_array then kX86Movsx8RA else kX86Movsx8RM), false,
              r_dest, r_dest_hi⟩

/-- `X86Codegen::LoadBaseIndexedDisp`: the unified load over
plain/base+index addressing and single/pair widths. The frame-access
annotation of the source is observational only and is not modelled. -/
def LoadBaseIndexedDisp (cu : CU) (rBase r_index : Nat) (scale : Int)
    (displacement : Int) (r_dest r_dest_hi : Nat) (size : OpSize) :
    Except String (CU × LIR) := do
  let is_array := r_index ≠ INVALID_REG
  let sel ← LoadBaseIndexedDispSel is_array displacement r_dest r_dest_hi size
  let opcode := sel.opcode
  let r_dest := sel.r_dest
  let r_dest_hi := sel.r_dest_hi
  if ¬ is_array then
    if ¬ sel.pair then
      return NewLIR cu opcode
        [(r_dest : Int), (rBase : Int), displacement + LOWORD_OFFSET]
    else
      if rBase = r_dest then
        let (cu, _load2) := NewLIR cu opcode
          [(r_dest_hi : Int), (rBase : Int), displacement + HIWORD_OFFSET]
        return NewLIR cu opcode
          [(r_dest : Int), (rBase : Int), displacement + LOWORD_OFFSET]
      else
        let (cu, load) := NewLIR cu opcode
          [(r_dest : Int), (rBase : Int), displacement + LOWORD_OFFSET]
        let (cu, _load2) := NewLIR cu opcode
          [(r_dest_hi : Int), (rBase : Int), displacement + HIWORD_OFFSET]
        return (cu, load)
  else
    if ¬ sel.pair then
      return NewLIR cu opcode
        [(r_dest : Int), (rBase : Int), (r_index : Int), scale,
         displacement + LOWORD_OFFSET]
    else
      if rBase = r_dest then
        let (cu, _load2) := NewLIR cu opcode
          [(r_dest_hi : Int), (rBase : Int), (r_index : Int), scale,
           displacement + HIWORD_OFFSET]
        return NewLIR cu opcode
          [(r_dest : Int), (rBase : Int), (r_index : Int), scale,
           displacement + LOWORD_OFFSET]
      else
        let (cu, load) := NewLIR cu opcode
          [(r_dest : Int), (rBase : Int), (r_index : Int), scale,
           displacement + LOWORD_OFFSET]
        let (cu, _load2) := NewLIR cu opcode
          [(r_dest_hi : Int), (rBase : Int), (r_index : Int), scale,
           displacement + HIWORD_OFFSET]
        return (cu, load)

/-- The opcode/pairing selection switch of `X86Codegen::StoreBaseIndexedDisp`
(including its alignment and floating-pair adjacency assertions). -/
def StoreBaseIndexedDispSel (is_array : Bool) (displacement : Int)
    (r_src r_src_hi : Nat) (size : OpSize) : Except String LoadSel := do
  match size with
  | kLong | kDouble =>
      if X86_FPREG r_src then
        let opcode := if is_array then kX86MovsdAR else kX86MovsdMR
        let r_src ←
          if X86_SINGLEREG r_src then
            if !X86_FPREG r_src_hi then
              throw "DCHECK failed: X86_FPREG r_src_hi"
            else if r_src ≠ r_src_hi - 1 then
              throw "DCHECK failed: r_src adjacent to r_src_hi"
            else
              pure (S2d r_src r_src_hi)
          else
            pure r_src
        if displacement % 4 ≠ 0 then
          throw "DCHECK failed: displacement word-aligned"
        else
          return ⟨opcode, false, r_src, r_src + 1⟩
      else
        if displacement % 4 ≠ 0 then
          throw "DCHECK failed: displacement word-aligned"
        else
          return ⟨(if is_array then kX86Mov32AR else kX86Mov32MR), true,
                  r_src, r_src_hi⟩
  | kWord | kSingle =>
      if X86_FPREG r_src then
        if !X86_SINGLEREG r_src then
          throw "DCHECK failed: X86_SINGLEREG r_src"
        else if displacement % 4 ≠ 0 then
          throw "DCHECK failed: displacement word-aligned"
        else
          return ⟨(if is_array then kX86MovssAR else kX86MovssMR), false,
                  r_src, r_src_hi⟩
      else
        if displacement % 4 ≠ 0 then
          throw "DCHECK failed: displacement word-aligned"
        else
          return ⟨(if is_array then kX86Mov32AR else kX86Mov32MR), false,
                  r_src, r_src_hi⟩
  | kUnsignedHalf | kSignedHalf =>
      if displacement % 2 ≠ 0 then
        throw "DCHECK failed: displacement half-aligned"
      else
        return ⟨(if is_array then kX86Mov16AR else kX86Mov16MR), false,
                r_src, r_src_hi⟩
  | kUnsignedByte | kSignedByte =>
      return ⟨(if is_array then kX86Mov8AR else kX86Mov8MR), false,
              r_src, r_src_hi⟩

/-- `X86Codegen::StoreBaseIndexedDisp`: the unified store. Note the source's
register-pair emission here is unconditionally low half first, then high
half — there is no `rBase == r_src` reordering as in the load. -/
def StoreBaseIndexedDisp (cu : CU) (rBase r_index : Nat) (scale : Int)
    (displacement : Int) (r_src r_src_hi : Nat) (size : OpSize) :
    Except String (CU × LIR) := do
  let is_array := r_index ≠ INVALID_REG
  let sel ← StoreBaseIndexedDispSel is_array displacement r_src r_src_hi size
  let opcode := sel.opcode
  let r_src := sel.r_dest
  let r_src_hi := sel.r_dest_hi
  if ¬ is_array then
    if ¬ sel.pair then
      return NewLIR cu opcode
        [(rBase : Int), displacement + LOWORD_OFFSET, (r_src : Int)]
    else
      let (cu, store) := NewLIR cu opcode
        [(rBase : Int), displacement + LOWORD_OFFSET, (r_src : Int)]
      let (cu, _store2) := NewLIR cu opcode
        [(rBase : Int), displacement + HIWORD_OFFSET, (r_src_hi : Int)]
      return (cu, store)
  else
    if ¬ sel.pair then
      return NewLIR cu opcode
        [(rBase : Int), (r_index : Int), scale,
         displacement + LOWORD_OFFSET, (r_src : Int)]
    else
      let (cu, store) := NewLIR cu opcode
        [(rBase : Int), (r_index : Int), scale,
         displacement + LOWORD_OFFSET, (r_src : Int)]
      let (cu, _store2) := NewLIR cu opcode
        [(rBase : Int), (r_index : Int), scale,
         displacement + HIWORD_OFFSET, (r_src_hi : Int)]
      return (cu, store)

/-- `X86Codegen::LoadBaseDispWide`: wide load through the unified engine. -/
def LoadBaseDispWide (cu : CU) (rBase : Nat) (displacement : Int)
    (r_dest_lo r_dest_hi : Nat) : Except String (CU × LIR) :=
  LoadBaseIndexedDisp cu rBase INVALID_REG 0 displacement r_dest_lo r_dest_hi kLong

/-- `X86Codegen::StoreBaseDispWide`: wide store through the unified engine. -/
def StoreBaseDispWide (cu : CU) (rBase : Nat) (displacement : Int)
    (r_src_lo r_src_hi : Nat) : Except String (CU × LIR) :=
  StoreBaseIndexedDisp cu rBase INVALID_REG 0 displacement r_src_lo r_src_hi kLong

/-- An empty compilation-unit state used for concrete evaluations. -/
def cu0 : CU := ⟨[], 10, 8⟩

/-- Whether an emission outcome is a fatal fault. -/
def isFatal (x : Except String (CU × LIR)) : Bool :=
  match x with
  | .error _ => true
  | .ok _ => false

/-- The transfer-order property of wide register-pair loads and stores, over
plain and indexed addressing: a load emits the high half first exactly when
the base register equals the low destination register, while a store always
emits the low half first, regardless of the base/source relationship. -/
def WidePairTransferOrder (cu : CU) (rBase r_lo r_hi r_index : Nat)
    (scale disp : Int) : Prop :=
  (LoadBaseIndexedDisp cu rBase INVALID_REG scale disp r_lo r_hi OpSize.kLong =
    .ok ({ cu with insns := cu.insns ++
            (if rBase = r_lo then
              [⟨kX86Mov32RM, [(r_hi : Int), (rBase : Int), disp + HIWORD_OFFSET], false⟩,
               ⟨kX86Mov32RM, [(r_lo : Int), (rBase : Int), disp + LOWORD_OFFSET], false⟩]
             else
              [⟨kX86Mov32RM, [(r_lo : Int), (rBase : Int), disp + LOWORD_OFFSET], false⟩,
               ⟨kX86Mov32RM, [(r_hi : Int), (rBase : Int), disp + HIWORD_OFFSET], false⟩]) },
          ⟨kX86Mov32RM, [(r_lo : Int), (rBase : Int), disp + LOWORD_OFFSET], false⟩))
  ∧ (r_index ≠ INVALID_REG →
     LoadBaseIndexedDisp cu rBase r_index scale disp r_lo r_hi OpSize.kLong =
      .ok ({ cu with insns := cu.insns ++
              (if rBase = r_lo then
                [⟨kX86Mov32RA, [(r_hi : Int), (rBase : Int), (r_index : Int), scale, disp + HIWORD_OFFSET], false⟩,
                 ⟨kX86Mov32RA, [(r_lo : Int), (rBase : Int), (r_index : Int), scale, disp + LOWORD_OFFSET], false⟩]
               else
                [⟨kX86Mov32RA, [(r_lo : Int), (rBase : Int), (r_index : Int), scale, disp + LOWORD_OFFSET], false⟩,
                 ⟨kX86Mov32RA, [(r_hi : Int), (rBase : Int), (r_index : Int), scale, disp + HIWORD_OFFSET], false⟩]) },
            ⟨kX86Mov32RA, [(r_lo : Int), (rBase : Int), (r_index : Int), scale, disp + LOWORD_OFFSET], false⟩))
  ∧ (StoreBaseIndexedDisp cu rBase INVALID_REG scale disp r_lo r_hi OpSize.kLong =
      .ok ({ cu with insns := cu.insns ++
              [⟨kX86Mov32MR, [(rBase : Int), disp + LOWORD_OFFSET, (r_lo : Int)], false⟩,
               ⟨kX86Mov32MR, [(rBase : Int), disp + HIWORD_OFFSET, (r_hi : Int)], false⟩] },
            ⟨kX86Mov32MR, [(rBase : Int), disp + LOWORD_OFFSET, (r_lo : Int)], false⟩))
  ∧ (r_index ≠ INVALID_REG →
     StoreBaseIndexedDisp cu rBase r_index scale disp r_lo r_hi OpSize.kLong =
      .ok ({ cu with insns := cu.insns ++
              [⟨kX86Mov32AR, [(rBase : Int), (r_index : Int), scale, disp + LOWORD_OFFSET, (r_lo : Int)], false⟩,
               ⟨kX86Mov32AR, [(rBase : Int), (r_index : Int), scale, disp + HIWORD_OFFSET, (r_hi : Int)], false⟩] },
            ⟨kX86Mov32AR, [(rBase : Int), (r_index : Int), scale, disp + LOWORD_OFFSET, (r_lo : Int)], false⟩))

/-- Move-immediate and multiply-immediate selection: move materializes
through `LoadConstantNoClobber`, and multiply uses its three-operand
immediate forms, choosing the 8-bit form exactly when the value fits in
8 bits signed, both through `OpRegImm` and through `OpRegRegImm`. -/
def MovMulImmForms (cu : CU) (r d s : Nat) (v : Int) : Prop :=
  (OpRegImm cu kOpMov r v = LoadConstantNoClobber cu r v)
  ∧ (OpRegImm cu kOpMul r v =
      .ok (NewLIR cu (if IS_SIMM8 v then kX86Imul32RRI8 else kX86Imul32RRI)
        [(r : Int), (r : Int), v]))
  ∧ (OpRegRegImm cu kOpMul d s v =
      .ok (NewLIR cu (if IS_SIMM8 v then kX86Imul32RRI8 else kX86Imul32RRI)
        [(d : Int), (s : Int), v]))

/-- The 8-bit signed-fits selection of short vs. full immediate opcodes for
the seven arithmetic/logical/compare register-immediate operations. -/
def ShortImmSelection (cu : CU) (r : Nat) (v : Int) : Prop :=
  (OpRegImm cu kOpAdd r v =
    .ok (NewLIR cu (if IS_SIMM8 v then kX86Add32RI8 else kX86Add32RI) [(r : Int), v]))
  ∧ (OpRegImm cu kOpOr r v =
      .ok (NewLIR cu (if IS_SIMM8 v then kX86Or32RI8 else kX86Or32RI) [(r : Int), v]))
  ∧ (OpRegImm cu kOpAdc r v =
      .ok (NewLIR cu (if IS_SIMM8 v then kX86Adc32RI8 else kX86Adc32RI) [(r : Int), v]))
  ∧ (OpRegImm cu kOpAnd r v =
      .ok (NewLIR cu (if IS_SIMM8 v then kX86And32RI8 else kX86And32RI) [(r : Int), v]))
  ∧ (OpRegImm cu kOpSub r v =
      .ok (NewLIR cu (if IS_SIMM8 v then kX86Sub32RI8 else kX86Sub32RI) [(r : Int), v]))
  ∧ (OpRegImm cu kOpXor r v =
      .ok (NewLIR cu (if IS_SIMM8 v then kX86Xor32RI8 else kX86Xor32RI) [(r : Int), v]))
  ∧ (OpRegImm cu kOpCmp r v =
      .ok (NewLIR cu (if IS_SIMM8 v then kX86Cmp32RI8 else kX86Cmp32RI) [(r : Int), v]))

/-- Three-operand `add` with a destination aliasing neither source and
distinct sources: a single `lea` computing the sum, with no preceding copy
(the operand roles flip when `src1` is the un-encodable base `rBP`). -/
def AddLeaSynthesis (cu : CU) (d s1 s2 : Nat) : Prop :=
  OpRegRegReg cu kOpAdd d s1 s2 =
    .ok (NewLIR cu kX86Lea32RA
      [(d : Int), (if s1 ≠ rBP then (s1 : Int) else (s2 : Int)),
       (if s1 ≠ rBP then (s2 : Int) else (s1 : Int)), 0, 0])

/-- Three-operand `add` with equal sources and a distinct destination:
exactly a copy of the source into the destination followed by a left shift
of the destination by 1. -/
def AddSelfCopyShift (cu : CU) (d s1 s2 : Nat) : Prop :=
  OpRegRegReg cu kOpAdd d s1 s2 =
    .ok ({ cu with insns := cu.insns ++
             [⟨kX86Mov32RR, [(d : Int), (s1 : Int)], false⟩,
              ⟨kX86Sal32RI, [(d : Int), 1], false⟩] },
         ⟨kX86Sal32RI, [(d : Int), 1], false⟩)

/-- A non-zero 64-bit constant with zero high half into a floating pair:
only the low half is materialized (through a borrowed temporary), with no
high-half instruction. -/
def WideHiZeroFloating (cu : CU) (r_lo r_hi : Nat) (val_lo : Int) : Prop :=
  LoadConstantValueWide cu r_lo r_hi val_lo 0 =
    .ok ({ cu with
             insns := cu.insns ++
               [⟨kX86Mov32RI, [(cu.nextTemp : Int), val_lo], false⟩,
                ⟨kX86MovdxrRR, [(r_lo : Int), (cu.nextTemp : Int)], false⟩],
             nextTemp := cu.nextTemp + 1 },
         ⟨kX86Mov32RI, [(cu.nextTemp : Int), val_lo], false⟩)

/-- A non-zero 64-bit constant with zero high half into a general-purpose
pair: the low half is materialized and the high register is still written,
cleared by a self-xor. -/
def WideHiZeroGpr (cu : CU) (r_lo r_hi : Nat) (val_lo : Int) : Prop :=
  LoadConstantValueWide cu r_lo r_hi val_lo 0 =
    .ok ({ cu with insns := cu.insns ++
             [⟨kX86Mov32RI, [(r_lo : Int), val_lo], false⟩,
              ⟨kX86Xor32RR, [(r_hi : Int), (r_hi : Int)], false⟩] },
         ⟨kX86Mov32RI, [(r_lo : Int), val_lo], false⟩)

/-- Word/single-width accesses at the given displacement fault in all four
load/store × plain/indexed combinations. -/
def WordMisalignedFaults (cu : CU) (rBase r_index r r_hi : Nat)
    (scale disp : Int) : Prop :=
  isFatal (LoadBaseIndexedDisp cu rBase r_index scale disp r r_hi OpSize.kWord) = true
  ∧ isFatal (LoadBaseIndexedDisp cu rBase r_index scale disp r r_hi OpSize.kSingle) = true
  ∧ isFatal (StoreBaseIndexedDisp cu rBase r_index scale disp r r_hi OpSize.kWord) = true
  ∧ isFatal (StoreBaseIndexedDisp cu rBase r_index scale disp r r_hi OpSize.kSingle) = true

/-- Half-width accesses at the given displacement fault in all four
load/store × signed/unsigned combinations. -/
def HalfMisalignedFaults (cu : CU) (rBase r_index r r_hi : Nat)
    (scale disp : Int) : Prop :=
  isFatal (LoadBaseIndexedDisp cu rBase r_index scale disp r r_hi OpSize.kUnsignedHalf) = true
  ∧ isFatal (LoadBaseIndexedDisp cu rBase r_index scale disp r r_hi OpSize.kSignedHalf) = true
  ∧ isFatal (StoreBaseIndexedDisp cu rBase r_index scale disp r r_hi OpSize.kUnsignedHalf) = true
  ∧ isFatal (StoreBaseIndexedDisp cu rBase r_index scale disp r r_hi OpSize.kSignedHalf) = true

/-! ## Helper lemmas -/

/-- `LoadConstantNoClobber` on a floating-single destination with a non-zero
value: materialize in a borrowed temporary, move across, release. -/
theorem LoadConstantNoClobber_fp_eq (cu : CU) (r : Nat) (v : Int)
    (hs : X86_SINGLEREG r = true) (hv : v ≠ 0) :
    LoadConstantNoClobber cu r v =
      .ok ({ cu with
               insns := cu.insns ++
                 [⟨kX86Mov32RI, [(cu.nextTemp : Int), v], false⟩,
                  ⟨kX86MovdxrRR, [(r : Int), (cu.nextTemp : Int)], false⟩],
               nextTemp := cu.nextTemp + 1 },
           ⟨kX86Mov32RI, [(cu.nextTemp : Int), v], false⟩) := by
  have hfp : X86_FPREG r = true := by
    have h := hs
    unfold X86_SINGLEREG at h
    exact (Bool.and_eq_true _ _ |>.mp h).1
  simp [LoadConstantNoClobber, hfp, hs, hv, AllocTemp, FreeTemp, NewLIR,
        bind, Except.bind, pure, Except.pure]

/-- `LoadConstantNoClobber` on a general-purpose destination: a single
self-xor for zero, otherwise a single full-width move immediate. -/
theorem LoadConstantNoClobber_gpr_eq (cu : CU) (r : Nat) (v : Int)
    (hr : X86_FPREG r = false) :
    LoadConstantNoClobber cu r v =
      .ok (if v = 0 then NewLIR cu kX86Xor32RR [(r : Int), (r : Int)]
           else NewLIR cu kX86Mov32RI [(r : Int), v]) := by
  by_cases hv : v = 0 <;>
    simp [LoadConstantNoClobber, hr, hv, bind, Except.bind, pure, Except.pure]

/-! ## Claims -/

/-- C1 (counterexample): a 64-bit register-pair store whose base register
equals the low source register still emits the low half first — the claimed
high-before-low ordering for this aliasing does not apply to stores. -/
theorem StoreBaseIndexedDisp_base_eq_low_emits_low_first :
    (StoreBaseIndexedDisp cu0 0 INVALID_REG 0 0 0 1 OpSize.kLong).map
        (fun p => p.1.insns) =
      .ok [⟨kX86Mov32MR, [0, 0, 0], false⟩,
           ⟨kX86Mov32MR, [0, 4, 1], false⟩]
  ∧ ([⟨kX86Mov32MR, [0, 0, 0], false⟩, ⟨kX86Mov32MR, [0, 4, 1], false⟩] :
      List LIR) ≠
    [⟨kX86Mov32MR, [0, 4, 1], false⟩, ⟨kX86Mov32MR, [0, 0, 0], false⟩] := by
  decide

/-- C1 (amended): for 64-bit register-pair transfers built by the
addressing-mode engine (plain or indexed), a load emits the high half
before the low half exactly when the base register equals the low
destination register, and the low half first otherwise; a store always
emits the low half before the high half, for every base/source
combination. -/
theorem widePairTransferOrder_holds (cu : CU)
    (rBase r_lo r_hi r_index : Nat) (scale disp : Int)
    (hfp : X86_FPREG r_lo = false) (hal : disp % 4 = 0) :
    WidePairTransferOrder cu rBase r_lo r_hi r_index scale disp := by
  unfold WidePairTransferOrder
  refine ⟨?_, fun hidx => ?_, ?_, fun hidx => ?_⟩
  · by_cases hb : rBase = r_lo <;>
      simp [LoadBaseIndexedDisp, LoadBaseIndexedDispSel, hfp, hal, hb,
            NewLIR, bind, Except.bind, pure, Except.pure]
  · by_cases hb : rBase = r_lo <;>
      simp [LoadBaseIndexedDisp, LoadBaseIndexedDispSel, hfp, hal, hb, hidx,
            NewLIR, bind, Except.bind, pure, Except.pure]
  · simp [StoreBaseIndexedDisp, StoreBaseIndexedDispSel, hfp, hal,
          NewLIR, bind, Except.bind, pure, Except.pure]
  · simp [StoreBaseIndexedDisp, StoreBaseIndexedDispSel, hfp, hal, hidx,
          NewLIR, bind, Except.bind, pure, Except.pure]

/-- C1 (witness): the amended ordering property at concrete registers. -/
theorem widePairTransferOrder_holds_witness :
    X86_FPREG 0 = false ∧ (8 : Int) % 4 = 0 ∧
    WidePairTransferOrder cu0 0 0 1 2 1 8 :=
  ⟨by decide, by decide,
   widePairTransferOrder_holds cu0 0 0 1 2 1 8 (by decide) (by decide)⟩

/-- C2 (counterexample): the multiply register-immediate selector does
apply the 8-bit signed-fits check — value 127 selects the 8-bit immediate
multiply form and value 128 the full-width one, so multiply does not pick
its immediate form "without that check" as claimed. -/
theorem OpRegImm_mul_applies_simm8_check :
    (OpRegImm cu0 kOpMul 0 127).map (fun p => p.2.opcode) = .ok kX86Imul32RRI8
  ∧ (OpRegImm cu0 kOpMul 0 128).map (fun p => p.2.opcode) = .ok kX86Imul32RRI
  ∧ kX86Imul32RRI8 ≠ kX86Imul32RRI := by
  decide

/-- C2 (amended): a move immediate always materializes through the constant
materializer (`LoadConstantNoClobber`) with no 8-bit width check, while a
multiply immediate uses its dedicated 3-operand immediate forms and does
apply the 8-bit signed-fits check to choose between the short and
full-width form, in both `OpRegImm` and `OpRegRegImm`. -/
theorem movMulImmForms_holds (cu : CU) (r d s : Nat) (v : Int)
    (hr : X86_FPREG r = false) :
    MovMulImmForms cu r d s v := by
  unfold MovMulImmForms
  refine ⟨?_, ?_, ?_⟩
  · simp [OpRegImm, hr]
  · simp [OpRegImm, hr, pure, Except.pure]
  · simp [OpRegRegImm, pure, Except.pure]

/-- C2 (witness): the amended move/multiply immediate property at concrete
operands. -/
theorem movMulImmForms_holds_witness :
    X86_FPREG 0 = false ∧ MovMulImmForms cu0 0 2 3 128 :=
  ⟨by decide, movMulImmForms_holds cu0 0 2 3 128 (by decide)⟩

/-- C3 (counterexample): materializing the 64-bit constant 5 (non-zero, high
half zero) into the general-purpose pair (0, 1) emits a second, high-half
instruction — a self-xor of the high register — so the claim's "no
high-half instruction for every destination register class" fails for
general-purpose pairs. -/
theorem LoadConstantValueWide_gpr_emits_hi_instruction :
    (LoadConstantValueWide cu0 0 1 5 0).map (fun p => p.1.insns) =
      .ok [⟨kX86Mov32RI, [0, 5], false⟩, ⟨kX86Xor32RR, [1, 1], false⟩]
  ∧ (LoadConstantValueWide cu0 0 1 5 0).map
        (fun p => p.1.insns.filter (fun l => l.operands.head? = some 1)) =
      .ok [⟨kX86Xor32RR, [1, 1], false⟩]
  ∧ (Except.ok [(⟨kX86Xor32RR, [1, 1], false⟩ : LIR)] ≠
      (.ok [] : Except String (List LIR))) := by
  decide

/-- C3 (amended): materializing a non-zero 64-bit pair with zero high half
emits no high-half instruction only for floating destinations; for a
general-purpose pair the high register is still written, by a self-xor. -/
theorem wideHiZero_by_class (cu : CU) :
    (∀ (r_lo r_hi : Nat) (val_lo : Int),
        X86_SINGLEREG r_lo = true → X86_FPREG r_hi = true → val_lo ≠ 0 →
        WideHiZeroFloating cu r_lo r_hi val_lo)
  ∧ (∀ (r_lo r_hi : Nat) (val_lo : Int),
        X86_FPREG r_lo = false → X86_FPREG r_hi = false → val_lo ≠ 0 →
        WideHiZeroGpr cu r_lo r_hi val_lo) := by
  constructor
  · intro r_lo r_hi val_lo hs hhi hv
    have hfp : X86_FPREG r_lo = true := by
      have h := hs
      unfold X86_SINGLEREG at h
      exact (Bool.and_eq_true _ _ |>.mp h).1
    unfold WideHiZeroFloating
    simp [LoadConstantValueWide, hfp, hhi, hv,
          LoadConstantNoClobber_fp_eq cu r_lo val_lo hs hv]
  · intro r_lo r_hi val_lo hlo hhi hv
    unfold WideHiZeroGpr
    simp [LoadConstantValueWide, hlo, hv, NewLIR,
          LoadConstantNoClobber_gpr_eq cu r_lo val_lo hlo,
          bind, Except.bind, pure, Except.pure]
    simp [LoadConstantNoClobber_gpr_eq _ r_hi 0 hhi, NewLIR,
          bind, Except.bind, pure, Except.pure]

/-- C3 (witness): both halves of the amended property at concrete
registers — floating pair (32, 33) and general-purpose pair (0, 1). -/
theorem wideHiZero_by_class_witness :
    (X86_SINGLEREG 32 = true ∧ X86_FPREG 33 = true ∧ (5 : Int) ≠ 0 ∧
      WideHiZeroFloating cu0 32 33 5)
  ∧ (X86_FPREG 0 = false ∧ X86_FPREG 1 = false ∧
      WideHiZeroGpr cu0 0 1 5) :=
  ⟨⟨by decide, by decide, by decide,
    (wideHiZero_by_class cu0).1 32 33 5 (by decide) (by decide) (by decide)⟩,
   ⟨by decide, by decide,
    (wideHiZero_by_class cu0).2 0 1 5 (by decide) (by decide) (by decide)⟩⟩

/-- C4: for add/or/adc/and/sub/xor/compare register-immediate operations,
the selector picks the short-immediate opcode exactly for values fitting in
8 bits signed (−128..127) and the full-immediate opcode otherwise; in
particular 127 and −128 take the short form, 128 and −129 the full form. -/
theorem shortImmSelection_holds (cu : CU) (r : Nat) (v : Int)
    (hr : X86_FPREG r = false) :
    ShortImmSelection cu r v
  ∧ (IS_SIMM8 127 = true ∧ IS_SIMM8 (-128) = true
     ∧ IS_SIMM8 128 = false ∧ IS_SIMM8 (-129) = false) := by
  unfold ShortImmSelection
  refine ⟨⟨?_, ?_, ?_, ?_, ?_, ?_, ?_⟩, by decide⟩ <;>
    simp [OpRegImm, hr, pure, Except.pure]

/-- C4 (witness): the short/full immediate selection at concrete operands. -/
theorem shortImmSelection_holds_witness :
    X86_FPREG 0 = false ∧
    (ShortImmSelection cu0 0 128
     ∧ (IS_SIMM8 127 = true ∧ IS_SIMM8 (-128) = true
        ∧ IS_SIMM8 128 = false ∧ IS_SIMM8 (-129) = false)) :=
  ⟨by decide, shortImmSelection_holds cu0 0 128 (by decide)⟩

/-- C5: three-operand `add` where the destination aliases neither source:
with distinct sources, a single `lea` and no preceding copy; with equal
sources, exactly a copy followed by a left shift by 1 and no `lea`. -/
theorem addSynthesis_holds (cu : CU) (d s1 s2 : Nat)
    (hd1 : d ≠ s1) (hd2 : d ≠ s2)
    (hfpd : X86_FPREG d = false) (hfp1 : X86_FPREG s1 = false) :
    (s1 ≠ s2 → AddLeaSynthesis cu d s1 s2)
  ∧ (s1 = s2 → AddSelfCopyShift cu d s1 s2) := by
  constructor
  · intro hne
    unfold AddLeaSynthesis
    by_cases hbp : s1 = rBP
    · subst hbp
      simp only [ne_eq, not_true_eq_false, if_false]
      simp [OpRegRegReg, hd1, hd2, hne, pure, Except.pure]
    · simp [OpRegRegReg, hd1, hd2, hne, hbp, pure, Except.pure]
  · intro heq
    subst heq
    unfold AddSelfCopyShift
    simp [OpRegRegReg, hd1, hd2, OpRegCopy, hfpd, hfp1, OpRegImm, NewLIR,
          bind, Except.bind, pure, Except.pure]

/-- C5 (witness): the add-synthesis property at concrete registers —
`dest = r2 + r3` is one `lea`, and `dest = r3 + r3` is copy then shift. -/
theorem addSynthesis_holds_witness :
    AddLeaSynthesis cu0 0 2 3 ∧ AddSelfCopyShift cu0 0 3 3 :=
  ⟨(addSynthesis_holds cu0 0 2 3 (by decide) (by decide) (by decide)
      (by decide)).1 (by decide),
   (addSynthesis_holds cu0 0 3 3 (by decide) (by decide) (by decide)
      (by decide)).2 rfl⟩

/-- C6: three-operand `subtract` with the destination equal to `src2`
(and distinct from `src1`): exactly an in-place negate of the destination
followed by an add of `src1` into it. -/
theorem subDestEqSrc2_holds (cu : CU) (d s1 : Nat) (h1 : d ≠ s1) :
    OpRegRegReg cu kOpSub d s1 d =
      .ok ({ cu with insns := cu.insns ++
               [⟨kX86Neg32R, [(d : Int)], false⟩,
                ⟨kX86Add32RR, [(d : Int), (s1 : Int)], false⟩] },
           ⟨kX86Add32RR, [(d : Int), (s1 : Int)], false⟩) := by
  simp [OpRegRegReg, h1, Ne.symm h1, OpReg, OpRegReg, NewLIR,
        bind, Except.bind, pure, Except.pure]

/-- C6 (witness): negate-then-add at concrete registers `0 = r3 - r0`. -/
theorem subDestEqSrc2_holds_witness :
    OpRegRegReg cu0 kOpSub 0 3 0 =
      .ok ({ cu0 with insns := cu0.insns ++
               [⟨kX86Neg32R, [(0 : Int)], false⟩,
                ⟨kX86Add32RR, [(0 : Int), (3 : Int)], false⟩] },
           ⟨kX86Add32RR, [(0 : Int), (3 : Int)], false⟩) :=
  subDestEqSrc2_holds cu0 0 3 (by decide)

/-- C7: materializing a non-zero constant into a floating destination
borrows one general-purpose temporary from the allocator and releases it
before returning: the call succeeds, the available-temporary count is
unchanged afterwards, and exactly one lease was taken. -/
theorem fpConstantTempBalance_holds (cu : CU) (r : Nat) (v : Int)
    (hs : X86_SINGLEREG r = true) (hv : v ≠ 0) :
    ∃ cu' res, LoadConstantNoClobber cu r v = .ok (cu', res)
      ∧ cu'.freeTemps = cu.freeTemps
      ∧ cu'.nextTemp = cu.nextTemp + 1 :=
  ⟨_, _, LoadConstantNoClobber_fp_eq cu r v hs hv, rfl, rfl⟩

/-- C7 (witness): the temporary balance at the concrete floating register
32 and value 7. -/
theorem fpConstantTempBalance_holds_witness :
    ∃ cu' res, LoadConstantNoClobber cu0 32 7 = .ok (cu', res)
      ∧ cu'.freeTemps = cu0.freeTemps
      ∧ cu'.nextTemp = cu0.nextTemp + 1 :=
  fpConstantTempBalance_holds cu0 32 7 (by decide) (by decide)

/-- C8: a word- or single-width load or store (plain or indexed) at a
displacement not a multiple of 4 hits the fatal alignment assertion and
emits nothing; a half-width access at a displacement not a multiple of 2
likewise faults. -/
theorem alignmentFaults_hold (cu : CU) (rBase r_index r r_hi : Nat)
    (scale disp : Int) :
    (disp % 4 ≠ 0 → WordMisalignedFaults cu rBase r_index r r_hi scale disp)
  ∧ (disp % 2 ≠ 0 → HalfMisalignedFaults cu rBase r_index r r_hi scale disp) := by
  constructor
  · intro h4
    unfold WordMisalignedFaults
    refine ⟨?_, ?_, ?_, ?_⟩ <;>
    · by_cases hf : X86_FPREG r <;> by_cases hs : X86_SINGLEREG r <;>
        simp [LoadBaseIndexedDisp, LoadBaseIndexedDispSel,
              StoreBaseIndexedDisp, StoreBaseIndexedDispSel,
              isFatal, hf, hs, h4, bind, Except.bind, pure, Except.pure]
  · intro h2
    unfold HalfMisalignedFaults
    refine ⟨?_, ?_, ?_, ?_⟩ <;>
      simp [LoadBaseIndexedDisp, LoadBaseIndexedDispSel,
            StoreBaseIndexedDisp, StoreBaseIndexedDispSel,
            isFatal, h2, bind, Except.bind, pure, Except.pure]

/-- C8 (witness): displacement 2 faults every word/single access and
displacement 1 faults every half access, at concrete registers. -/
theorem alignmentFaults_hold_witness :
    ((2 : Int) % 4 ≠ 0 ∧ WordMisalignedFaults cu0 3 255 0 1 0 2)
  ∧ ((1 : Int) % 2 ≠ 0 ∧ HalfMisalignedFaults cu0 3 255 0 1 0 1) :=
  ⟨⟨by decide, (alignmentFaults_hold cu0 3 255 0 1 0 2).1 (by decide)⟩,
   ⟨by decide, (alignmentFaults_hold cu0 3 255 0 1 0 1).2 (by decide)⟩⟩

/-- C9: materializing the constant 0 into a destination of any register
class emits exactly one self-xor instruction — the packed floating xor for
floating destinations, the 32-bit xor otherwise — and nothing else. -/
theorem zeroSelfXor_holds (cu : CU) (r : Nat) :
    LoadConstantNoClobber cu r 0 =
      .ok (NewLIR cu (if X86_FPREG r then kX86XorpsRR else kX86Xor32RR)
        [(r : Int), (r : Int)]) := by
  by_cases h : X86_FPREG r <;>
    simp [LoadConstantNoClobber, h, pure, Except.pure]

/-- C10: for the register-register shifts (shift left, logical shift right,
arithmetic shift right), the count register must be `rCX`: with `rCX` the
shift-by-CL opcode is emitted, and with any other count register the fatal
check fires and nothing is emitted. -/
theorem shiftCountMustBeRCX_holds (cu : CU) (r1 r2 : Nat) :
    (OpRegReg cu kOpLsl r1 r2 =
      if r2 = rCX then .ok (NewLIR cu kX86Sal32RC [(r1 : Int), (r2 : Int)])
      else .error "CHECK failed: src2 must be rCX")
  ∧ (OpRegReg cu kOpLsr r1 r2 =
      if r2 = rCX then .ok (NewLIR cu kX86Shr32RC [(r1 : Int), (r2 : Int)])
      else .error "CHECK failed: src2 must be rCX")
  ∧ (OpRegReg cu kOpAsr r1 r2 =
      if r2 = rCX then .ok (NewLIR cu kX86Sar32RC [(r1 : Int), (r2 : Int)])
      else .error "CHECK failed: src2 must be rCX") := by
  refine ⟨?_, ?_, ?_⟩ <;>
    (by_cases h : r2 = rCX <;>
      simp [OpRegReg, h, pure, Except.pure, throw, throwThe,
            MonadExceptOf.throw, instMonadExceptOfExcept])

end ArtX86
